import Mathlib

/-! Shallow embedding of the authentication subsystem of the
`SERVER_boilerplate` repository (TypeScript/Express/Mongoose), covering:

* `src/utils/tokenGenerator.ts` (`Token.generate`, `Token.verifyToken`);
* `src/middlewares/auth/auth.middleware.ts` (`protect`);
* `src/middlewares/roles` (`isProUser`, re-reading `is_premium` through a
  Mongoose `.select("info.is_premium")` projection);
* `src/controllers/auth/user.controller.ts` (`createUser`, `loginUser`,
  `verifyLoginWithTwoFactor`, `confirmEmail`, `requestPasswordReset`,
  `resetPassword`);
* the 2FA profile controller (`generateTwoFactorSecret`,
  `verifyAndEnableTwoFactor`, `disableTwoFactor`).

External collaborators (argon2 hashing, speakeasy TOTP verification) are
passed in as function parameters; randomness (verification codes, TOTP
secrets) and the clock (`Date.now()`) are passed as explicit arguments.
Machine integers do not overflow in any of the modelled arithmetic
(timestamps in milliseconds), so `Nat` is used directly.
The database is a list of user records; Mongoose `findOne`/`findById`
become `List.find?` (first match in natural order) and `save` becomes a
replace-by-id map.
-/

namespace Boilerplate

/-- The `UserRole` enum from `src/types/user.types.ts`: `ADMIN`, `USER`. -/
inductive UserRole where
  | ADMIN
  | USER
deriving DecidableEq, Repr

/-- The speakeasy secret object stored at `security.two_factor.secret`
(`ascii`, `hex`, `base32`, `otpauth_url`), per the user schema. -/
structure TwoFactorSecret where
  ascii : String
  hex : String
  base32 : String
  otpauth_url : String
deriving DecidableEq, Repr

/-- The `security.two_factor` sub-document of the user schema
(`ITwoFactorInfo`): optional secret, `enabled` flag (default `false`). -/
structure TwoFactorInfo where
  secret : Option TwoFactorSecret
  enabled : Bool
deriving DecidableEq, Repr

/-- A user document, following the Mongoose schema in
`src/models/user.model.ts`.  Timestamps (`Date`) are milliseconds since
epoch as `Nat`; absent (`undefined`) fields are `Option.none`.
`is_premium` is a TOP-LEVEL schema path (lines 84-87 of the model), not
nested under any `info` sub-document. -/
structure UserRec where
  id : Nat
  first_name : String
  last_name : String
  phone : String
  country : String
  email : String
  /-- argon2 hash of the password. -/
  password : String
  role : UserRole
  agree_terms : Bool
  is_premium : Bool
  is_verified : Bool
  verify_email_token : Option String
  verify_email_token_expires : Option Nat
  reset_password_token : Option String
  reset_password_token_expires : Option Nat
  two_factor : TwoFactorInfo
  /-- Set by the referral branch of `createUser` (`user.referredBy =
  referrer._id`); no other code reads it. -/
  referredBy : Option Nat
deriving DecidableEq, Repr

/-- The database: user collection in natural order. `findOne` returns the
first match. -/
abbrev DB := List UserRec

/-- Model of `User.findOne({ email })`. -/
def findOneByEmail (db : DB) (email : String) : Option UserRec :=
  db.find? (fun u => u.email = email)

/-- Model of `User.findById(id)`. -/
def findById (db : DB) (id : Nat) : Option UserRec :=
  db.find? (fun u => u.id = id)

/-- Model of `User.findOne({ reset_password_token: tok,
reset_password_token_expires: { $gt: new Date() } })`: first user whose
stored reset token equals `tok` and whose expiry is present and strictly
greater than `now` (a missing field never satisfies `$gt`). -/
def resetTokenMatches (now : Nat) (tok : String) (u : UserRec) : Bool :=
  u.reset_password_token = some tok &&
    match u.reset_password_token_expires with
    | some e => now < e
    | none => false

def findOneByResetToken (db : DB) (tok : String) (now : Nat) : Option UserRec :=
  db.find? (resetTokenMatches now tok)

/-- Model of `user.save()` on an existing document: replace the record with the
same `_id`. -/
def saveUser (db : DB) (u : UserRec) : DB :=
  db.map (fun v => if v.id = u.id then u else v)

/-! Token issuer/verifier (`src/utils/tokenGenerator.ts`).

A JWT is modelled as its decoded payload plus the signing key: HMAC
verification succeeds exactly when the verifying secret equals the key
the token was signed with.  `jwt.sign(payload, secret, { expiresIn })`
adds `iat`/`exp` and signs; it does NOT add an issuer claim — the `iss`
claim is whatever the caller put in the payload (the controllers never
put one). -/

/-- Decoded JWT payload as used by the controllers: `{ userId, scope?,
iss? }`.  The controllers sign `{ userId }` (full access) or
`{ userId, scope: "2fa" }` (temporary token); neither sets `iss`. -/
structure JwtClaims where
  userId : Nat
  scope : Option String
  iss : Option String
deriving DecidableEq, Repr

/-- A signed token: payload claims, `iat`, `exp` (absolute ms), and the
key it was signed with. -/
structure SignedJwt where
  claims : JwtClaims
  iat : Nat
  exp : Nat
  sigKey : String
deriving DecidableEq, Repr

/-- Errors raised by the `verify` of `jsonwebtoken` as caught by the
controllers, plus the guard `Token` throws when no secret is given. -/
inductive JwtError where
  | missingSecret
  | invalidSignature
  | expired
  | issuerMismatch
deriving DecidableEq, Repr

/-- Model of `generateToken(secret, payload, expiresIn)` =
`new Token(secret, payload, expiresIn).generate()`: throws when the
secret is empty, otherwise returns `jwt.sign(payload, secret,
{ expiresIn })`.  No issuer option is passed to `jwt.sign`. -/
def generateToken (secret : String) (payload : JwtClaims) (now ttl : Nat) :
    Except String SignedJwt :=
  if secret = "" then
    .error ("Secret key is required for token generation")
  else
    .ok { claims := payload, iat := now, exp := now + ttl, sigKey := secret }

/-- Model of `verifyToken(secret, token)` = `Token.verifyToken`: throws when the
secret is empty, otherwise `jwt.verify(token, secret)` — signature and
expiry checks only; no `issuer` option, so the `iss` claim is never
inspected. -/
def verifyToken (secret : String) (now : Nat) (tok : SignedJwt) :
    Except JwtError JwtClaims :=
  if secret = "" then .error .missingSecret
  else if tok.sigKey ≠ secret then .error .invalidSignature
  else if tok.exp ≤ now then .error .expired
  else .ok tok.claims

/-- Model of `jwt.verify(token, secret, { issuer, algorithms })` as called by the
`protect` middleware: signature, expiry, then issuer claim against the
expected issuer (`jwtConfig.accessToken.issuer = "api-server"`). -/
def jwtVerifyWithIssuer (secret issuer : String) (now : Nat)
    (tok : SignedJwt) : Except JwtError JwtClaims :=
  if tok.sigKey ≠ secret then .error .invalidSignature
  else if tok.exp ≤ now then .error .expired
  else if tok.claims.iss ≠ some issuer then .error .issuerMismatch
  else .ok tok.claims

/-! The `protect` middleware (`src/middlewares/auth/auth.middleware.ts`). -/

/-- Outcome of an Express middleware: pass control on with a request
user attached, or respond/error with an HTTP status. -/
inductive GateResult where
  | allow (userId : Nat)
  | deny (status : Nat) (message : String)
deriving DecidableEq, Repr

/-- Model of `protect`: extract the bearer token (here: the already-extracted
optional token), 401 when absent; verify with the access-token secret,
expected issuer and algorithm; on success attach the decoded user and
call `next()`.  The decoded `scope` claim is never read. -/
def protect (secret issuer : String) (now : Nat)
    (bearer : Option SignedJwt) : GateResult :=
  match bearer with
  | none => .deny 401 "Access denied. No token provided."
  | some tok =>
    match jwtVerifyWithIssuer secret issuer now tok with
    | .error .expired => .deny 401 "Token expired"
    | .error _ => .deny 401 "Invalid token"
    | .ok claims => .allow claims.userId

/-! HTTP responses.

A controller response is modelled by its status code and the tokens it
carries: `cookieToken` is the `Set-Cookie: token=...` header (set by
`res.cookie`), `bodyToken` the `token` field of a success body,
`tempToken` the `tempToken` field of the 2FA-pending login body.
`ApiResponseCode`: OK=200, CREATED=201, BAD_REQUEST=400,
UNAUTHORIZED=401, FORBIDDEN=403, NOT_FOUND=404, CONFLICT=409,
INTERNAL_ERROR=500. -/

structure ApiResult where
  status : Nat
  message : String
  cookieToken : Option SignedJwt
  bodyToken : Option SignedJwt
  tempToken : Option SignedJwt
deriving DecidableEq, Repr

/-- Response of `errorApiResponse` / `successApiResponse` with no token data. -/
def plainRes (status : Nat) (message : String) : ApiResult :=
  { status := status, message := message, cookieToken := none,
    bodyToken := none, tempToken := none }

/-- Value `INTERNAL_ERROR` of `ApiResponseCode`. -/
def internalRes : ApiResult := plainRes 500 "Internal Server Error"

/-! The `loginUser` controller (`src/controllers/auth/user.controller.ts`).

External argon2 verification is the parameter `argonVerify stored plain`.
`expiresInMs` is the parsed `JWT_EXPIRES_IN` (default `"1h"` =
3600000 ms); the temporary 2FA token TTL is the literal 5m =
300000 ms. -/

def mandatoryRoles : List UserRole := [.ADMIN, .USER]

def loginUser (secret : String) (expiresInMs : Nat)
    (argonVerify : String → String → Bool)
    (db : DB) (email password : String) (now : Nat) : DB × ApiResult :=
  match findOneByEmail db email with
  | none => (db, plainRes 401 "Invalid email or password")
  | some user =>
    if !argonVerify user.password password then
      (db, plainRes 401 "Invalid email or password")
    else
      let istwo_factorEnabled := user.two_factor.enabled
      if mandatoryRoles.contains user.role && !istwo_factorEnabled then
        match generateToken secret ⟨user.id, none, none⟩ now expiresInMs with
        | .error _ => (db, internalRes)
        | .ok token =>
          (db, { status := 201,
                 message := "Login successful, Set 2fa for more security",
                 cookieToken := some token, bodyToken := none,
                 tempToken := none })
      else if istwo_factorEnabled then
        match generateToken secret ⟨user.id, some ("2fa"), none⟩ now 300000 with
        | .error _ => (db, internalRes)
        | .ok tempToken =>
          (db, { status := 200, message := "Please enter your 2FA code.",
                 cookieToken := none, bodyToken := none,
                 tempToken := some tempToken })
      else
        match generateToken secret ⟨user.id, none, none⟩ now expiresInMs with
        | .error _ => (db, internalRes)
        | .ok token =>
          (db, { status := 200, message := "Login successful",
                 cookieToken := some token, bodyToken := some token,
                 tempToken := none })

/-! The `verifyLoginWithTwoFactor` controller.

`totpVerify secretBase32 code now` models `speakeasy.totp.verify` with
`window: 1` at clock time `now`. -/

def verifyLoginWithTwoFactor (secret : String) (expiresInMs : Nat)
    (totpVerify : String → String → Nat → Bool)
    (db : DB) (tempToken : Option SignedJwt)
    (two_factorToken : Option String) (now : Nat) : DB × ApiResult :=
  match tempToken, two_factorToken with
  | none, _ => (db, plainRes 400 "Temporary token and 2FA token are required.")
  | _, none => (db, plainRes 400 "Temporary token and 2FA token are required.")
  | some tok, some code =>
    if code = "" then
      (db, plainRes 400 "Temporary token and 2FA token are required.")
    else
      match verifyToken secret now tok with
      | .error .missingSecret => (db, internalRes)
      | .error _ => (db, plainRes 401 "Invalid or expired temporary token.")
      | .ok decoded =>
        if decoded.scope ≠ some ("2fa") then
          (db, plainRes 403 "Invalid token scope.")
        else
          match findById db decoded.userId with
          | none =>
            (db, plainRes 400 "2FA is not enabled or configured for this user.")
          | some user =>
            if !user.two_factor.enabled then
              (db, plainRes 400 "2FA is not enabled or configured for this user.")
            else
              match user.two_factor.secret with
              | none =>
                (db, plainRes 400 "2FA is not enabled or configured for this user.")
              | some s =>
                if s.base32 = "" then
                  (db, plainRes 400 "2FA is not enabled or configured for this user.")
                else if !totpVerify s.base32 code now then
                  (db, plainRes 401 "Invalid 2FA token.")
                else
                  match generateToken secret ⟨user.id, none, none⟩ now expiresInMs with
                  | .error _ => (db, internalRes)
                  | .ok finalToken =>
                    (db, { status := 200, message := "Login successful",
                           cookieToken := some finalToken,
                           bodyToken := some finalToken,
                           tempToken := none })

/-! The `confirmEmail` controller. -/

def confirmEmail (db : DB) (userId : Nat) (verificationCode : String)
    (now : Nat) : DB × ApiResult :=
  match findById db userId with
  | none => (db, plainRes 404 "User not found")
  | some user =>
    let reject : Bool :=
      user.verify_email_token ≠ some verificationCode ||
      user.verify_email_token_expires.isNone ||
      (match user.verify_email_token_expires with
       | some e => decide (e < now)
       | none => true)
    if reject then
      (db, plainRes 401 "Invalid or expired verification code")
    else
      let user' := { user with is_verified := true,
                               verify_email_token := none,
                               verify_email_token_expires := none }
      (saveUser db user', plainRes 200 "Email confirmed successfully")

/-! The `requestPasswordReset` controller.

`resetCode` is the random 6-digit draw
`String(Math.floor(100000 + Math.random() * 900000))`. -/

def requestPasswordReset (db : DB) (email : String) (resetCode : String)
    (now : Nat) : DB × ApiResult :=
  match findOneByEmail db email with
  | none => (db, plainRes 404 "User not found")
  | some user =>
    let user' := { user with
      reset_password_token := some resetCode,
      reset_password_token_expires := some (now + 15 * 60 * 1000) }
    (saveUser db user',
     plainRes 200 "Password reset instructions sent to your email")

/-! The `resetPassword` controller.

`argonHash` models `argon2.hash` (the random salt is folded into the
parameter). -/

def resetPassword (argonHash : String → String)
    (db : DB) (token new_password : String) (now : Nat) : DB × ApiResult :=
  match findOneByResetToken db token now with
  | none => (db, plainRes 400 "Invalid or expired reset token")
  | some user =>
    let user' := { user with
      password := argonHash new_password,
      reset_password_token := none,
      reset_password_token_expires := none }
    (saveUser db user', plainRes 200 "Password reset successfully")

/-! The `isProUser` role middleware.

`User.findById(userId).select("info.is_premium")` is an inclusive
Mongoose projection on the path `"info.is_premium"`.  The user schema
declares `is_premium` at TOP level and has no `info` sub-document, so
the projected document carries no `is_premium` value; reading
`user.is_premium` on it yields `undefined` (falsy).  The projection is
modelled structurally: the document exposes its Boolean schema paths as
a partial map, and `select` reads the requested path from that map. -/

/-- The Boolean schema paths of a stored user document relevant here:
only the top-level `"is_premium"` path exists. -/
def boolSchemaPath (u : UserRec) : String → Option Bool :=
  fun path => if path = "is_premium" then some u.is_premium else none

/-- Inclusive projection `.select(path)` followed by reading the
`is_premium` property of the hydrated document: the value is present
only if the selected path is the schema path holding it. -/
def selectedIsPremium (u : UserRec) (path : String) : Option Bool :=
  boolSchemaPath u path

def isProUser (db : DB) (reqUserId : Option Nat) : GateResult :=
  match reqUserId with
  | none => .deny 401 "Authentication error: User ID not found in token."
  | some uid =>
    match findById db uid with
    | none => .deny 404 "User not found."
    | some user =>
      -- `if (!user.is_premium)` on the `.select("info.is_premium")` result
      if (selectedIsPremium user ("info.is_premium")).getD false = false then
        .deny 403 "Forbidden: This feature is for Pro users only."
      else
        .allow uid

/-! Profile 2FA controllers (`generateTwoFactorSecret`,
`verifyAndEnableTwoFactor`, `disableTwoFactor`)

`newSecret` is the random draw of `speakeasy.generateSecret`. -/

def generateTwoFactorSecret (db : DB) (reqUserId : Option Nat)
    (newSecret : TwoFactorSecret) : DB × ApiResult :=
  match reqUserId.bind (findById db) with
  | none => (db, plainRes 404 "User not found")
  | some user =>
    let user' := { user with
      two_factor := { user.two_factor with secret := some newSecret } }
    (saveUser db user',
     plainRes 200 "2FA secret generated. Please scan the QR code and verify.")

def verifyAndEnableTwoFactor (totpVerify : String → String → Nat → Bool)
    (db : DB) (reqUserId : Option Nat) (token : Option String)
    (now : Nat) : DB × ApiResult :=
  match token with
  | none => (db, plainRes 400 "Token is required")
  | some code =>
    if code = "" then (db, plainRes 400 "Token is required")
    else
      match reqUserId.bind (findById db) with
      | none =>
        (db, plainRes 404 "2FA secret not found. Please generate one first.")
      | some user =>
        match user.two_factor.secret with
        | none =>
          (db, plainRes 404 "2FA secret not found. Please generate one first.")
        | some s =>
          if s.base32 = "" then
            (db, plainRes 404 "2FA secret not found. Please generate one first.")
          else if !totpVerify s.base32 code now then
            (db, plainRes 401 "Invalid 2FA token")
          else
            let user' := { user with
              two_factor := { user.two_factor with enabled := true } }
            (saveUser db user',
             plainRes 200 "2FA has been enabled successfully.")

def disableTwoFactor (argonVerify : String → String → Bool)
    (db : DB) (reqUserId : Option Nat) (password : Option String) :
    DB × ApiResult :=
  match password with
  | none => (db, plainRes 400 "Password is required to disable 2FA")
  | some pw =>
    if pw = "" then (db, plainRes 400 "Password is required to disable 2FA")
    else
      match reqUserId.bind (findById db) with
      | none => (db, plainRes 404 "User not found")
      | some user =>
        if !argonVerify user.password pw then
          (db, plainRes 401 "Invalid password")
        else
          let user' := { user with
            two_factor := { enabled := false, secret := none } }
          (saveUser db user',
           plainRes 200 "2FA has been disabled successfully.")

/-! The `createUser` controller (registration with referral inside a transaction).

The controller wraps the whole operation in a Mongoose session
transaction: any throw is caught, `abortTransaction` discards every
in-transaction write, and a 500 `Internal Server Error` response is
sent.  The steps that can throw are injected through `failAt`; the
writes of the transaction become visible only on a successful commit.

Order of operations in the source: duplicate-email check, hash,
build user with verification code (5-minute expiry), referrer lookup
(only when a `referralCode` was submitted; a miss merely logs a
warning), `user.save({ session })`, `generateToken`, fire-and-forget
verification email, `res.cookie("token", ...)`, `commitTransaction`,
201 response.  Note `res.cookie` runs BEFORE `commitTransaction`, so a
commit failure is answered 500 but the `Set-Cookie` header holding the
token has already been placed on the response.

`referrer` is the result of `User.findOne({ referralCode })` (external
query outcome passed in, like the random draws). -/

inductive CreateStep where
  | referrerLookup
  | accountSave
  | tokenIssue
  | commit
deriving DecidableEq, Repr

structure SignupInput where
  first_name : String
  last_name : String
  phone : String
  country : String
  email : String
  password : String
  agree_terms : Bool
  referralCode : Option String
deriving DecidableEq, Repr

def createUser (secret : String) (expiresInMs : Nat)
    (argonHash : String → String)
    (db : DB) (input : SignupInput) (referrer : Option UserRec)
    (newId verificationCode now : Nat)
    (failAt : Option CreateStep) : DB × ApiResult :=
  if input.email = "" || input.password = "" then
    (db, plainRes 400 "Email and password are required")
  else
    match findOneByEmail db input.email with
    | some _ => (db, plainRes 409 "Email already exists")
    | none =>
      let baseUser : UserRec := {
        id := newId,
        first_name := input.first_name, last_name := input.last_name,
        phone := input.phone, country := input.country,
        email := input.email,
        password := argonHash input.password,
        role := .USER,
        agree_terms := input.agree_terms || true,
        is_premium := false, is_verified := false,
        verify_email_token := some (toString verificationCode),
        verify_email_token_expires := some (now + 5 * 60 * 1000),
        reset_password_token := none,
        reset_password_token_expires := none,
        two_factor := { secret := none, enabled := false },
        referredBy := none }
      let afterReferral : Option UserRec :=
        match input.referralCode with
        | none => some baseUser
        | some _ =>
          if failAt = some .referrerLookup then none
          else
            match referrer with
            | some r => some { baseUser with referredBy := some r.id }
            | none => some baseUser
      match afterReferral with
      | none => (db, internalRes)
      | some user1 =>
        if failAt = some .accountSave then (db, internalRes)
        else
          match
            (if failAt = some .tokenIssue then
               Except.error ("token issuance failed")
             else
               generateToken secret ⟨newId, none, none⟩ now expiresInMs) with
          | .error _ => (db, internalRes)
          | .ok token =>
            if failAt = some .commit then
              (db, { status := 500, message := "Internal Server Error",
                     cookieToken := some token, bodyToken := none,
                     tempToken := none })
            else
              (db ++ [user1],
               { status := 201, message := "User created successfully",
                 cookieToken := some token, bodyToken := some token,
                 tempToken := none })

/-! Account-mutating operation sequences.

For the 2FA-enrollment invariant the mutating controllers are packaged
as an operation type; each constructor carries the principal (the
authenticated `req.user.userId` for the bearer-token routes) and the
request data, and the external collaborators and random draws appear as
parameters of the interpreter. -/

inductive AccountOp where
  | gen (principal : Nat) (newSecret : TwoFactorSecret)
  | verify2fa (principal : Nat) (code : String) (now : Nat)
  | disable (principal : Nat) (pw : String)
  | confirm (principal : Nat) (code : String) (now : Nat)
  | requestReset (email code : String) (now : Nat)
  | resetPw (token newPw : String) (now : Nat)
deriving DecidableEq, Repr

def applyOp (totpVerify : String → String → Nat → Bool)
    (argonVerify : String → String → Bool) (argonHash : String → String)
    (db : DB) : AccountOp → DB
  | .gen p s => (generateTwoFactorSecret db (some p) s).1
  | .verify2fa p c n => (verifyAndEnableTwoFactor totpVerify db (some p) (some c) n).1
  | .disable p pw => (disableTwoFactor argonVerify db (some p) (some pw)).1
  | .confirm p c n => (confirmEmail db p c n).1
  | .requestReset e c n => (requestPasswordReset db e c n).1
  | .resetPw t pw n => (resetPassword argonHash db t pw n).1

def runOps (totpVerify : String → String → Nat → Bool)
    (argonVerify : String → String → Bool) (argonHash : String → String)
    (ops : List AccountOp) (db : DB) : DB :=
  ops.foldl (applyOp totpVerify argonVerify argonHash) db

/-- The stored `security.two_factor.enabled` flag of account `uid`
(`false` when the account does not exist). -/
def enabledOf (db : DB) (uid : Nat) : Bool :=
  match findById db uid with
  | some u => u.two_factor.enabled
  | none => false

/-- Holds when `op` is a 2FA-verify request by principal `uid` whose submitted code
verifies (per `speakeasy.totp.verify`) against the secret currently
stored on account `uid`. -/
def opEnables (totpVerify : String → String → Nat → Bool)
    (db : DB) (uid : Nat) : AccountOp → Bool
  | .verify2fa p c n =>
    p = uid &&
      (match findById db uid with
       | some u =>
         match u.two_factor.secret with
         | some s => !(s.base32 = "") && totpVerify s.base32 c n
         | none => false
       | none => false)
  | _ => false

/-- Along a run of operations, no 2FA-verify request by `uid` succeeds
against the state current when it executes. -/
def noEnableAlong (tv : String → String → Nat → Bool)
    (av : String → String → Bool) (ah : String → String)
    (uid : Nat) : List AccountOp → DB → Prop
  | [], _ => True
  | op :: rest, db =>
    opEnables tv db uid op = false ∧
      noEnableAlong tv av ah uid rest (applyOp tv av ah db op)

/-! Concrete JWT secrets and issuer used by closed instances. -/

def jwtSecret : String := "jwt-secret"

def accessSecret : String := "access-secret"

def apiIssuer : String := "api-server"


/-! Concrete sample data for closed instances. -/

def sampleSecret : TwoFactorSecret :=
  { ascii := "sec", hex := "736563", base32 := "ONSWG",
    otpauth_url := "otpauth://totp/CreativityVerse" }

def demoUser : UserRec :=
  { id := 1, first_name := "Ada", last_name := "Love", phone := "080",
    country := "NG", email := "ada@example.com", password := "argon#pw1",
    role := .USER, agree_terms := true, is_premium := false,
    is_verified := false, verify_email_token := none,
    verify_email_token_expires := none, reset_password_token := none,
    reset_password_token_expires := none,
    two_factor := { secret := none, enabled := false }, referredBy := none }

/-- Concrete stand-in for `argon2.verify`. -/
def demoVerify : String → String → Bool :=
  fun stored plain => stored = "argon#" ++ plain

/-- Concrete stand-in for `argon2.hash`. -/
def demoHash : String → String := fun plain => "argon#" ++ plain

/-- Concrete stand-in for `speakeasy.totp.verify`. -/
def demoTotp : String → String → Nat → Bool :=
  fun secret code _ => secret = "ONSWG" && code = "246810"

/-- An existing account that is the target of a referral code. -/
def referrerUser : UserRec :=
  { demoUser with id := 7, email := "ref@example.com", phone := "081" }

def referredSignup : SignupInput :=
  { first_name := "New", last_name := "User", phone := "082",
    country := "NG", email := "new@example.com", password := "pw12345",
    agree_terms := true, referralCode := some ("REF7") }

/-- Account with a pending email-verification code whose expiry instant
is exactly 5000. -/
def verifUser : UserRec :=
  { demoUser with
    verify_email_token := some ("111111"),
    verify_email_token_expires := some 5000 }

/-- Account holding both a pending verification code and a pending
reset code. -/
def codeUser : UserRec :=
  { demoUser with
    verify_email_token := some ("222333"),
    verify_email_token_expires := some 10000,
    reset_password_token := some ("654321"),
    reset_password_token_expires := some 20000 }

/-- Account with 2FA fully enabled. -/
def twoFaUser : UserRec :=
  { demoUser with
    two_factor := { secret := some sampleSecret, enabled := true } }

/-- The 5-minute temporary token `loginUser` issues for `twoFaUser`. -/
def demoTempToken : SignedJwt :=
  { claims := { userId := 1, scope := some ("2fa"), iss := none },
    iat := 0, exp := 300000, sigKey := jwtSecret }

/-! Record-store lemmas. -/

theorem findById_mem {db : DB} {uid : Nat} {u : UserRec}
    (h : findById db uid = some u) : u ∈ db :=
  List.mem_of_find?_eq_some h

theorem findById_id {db : DB} {uid : Nat} {u : UserRec}
    (h : findById db uid = some u) : u.id = uid := by
  have := List.find?_some h
  simpa using this

theorem findOneByEmail_mem {db : DB} {e : String} {u : UserRec}
    (h : findOneByEmail db e = some u) : u ∈ db :=
  List.mem_of_find?_eq_some h

theorem findOneByEmail_email {db : DB} {e : String} {u : UserRec}
    (h : findOneByEmail db e = some u) : u.email = e := by
  have := List.find?_some h
  simpa using this

theorem findOneByResetToken_mem {db : DB} {t : String} {now : Nat}
    {u : UserRec} (h : findOneByResetToken db t now = some u) : u ∈ db :=
  List.mem_of_find?_eq_some h

theorem findOneByResetToken_matches {db : DB} {t : String} {now : Nat}
    {u : UserRec} (h : findOneByResetToken db t now = some u) :
    resetTokenMatches now t u = true :=
  List.find?_some h

theorem resetTokenMatches_iff {now : Nat} {t : String} {u : UserRec} :
    resetTokenMatches now t u = true ↔
      u.reset_password_token = some t ∧
        ∃ e, u.reset_password_token_expires = some e ∧ now < e := by
  unfold resetTokenMatches
  cases hx : u.reset_password_token_expires with
  | none => simp [hx]
  | some e => simp [hx]

/-- `saveUser` seen through `findById`: the looked-up record is the old
one, replaced when its `_id` equals the `_id` of the saved record. -/
theorem findById_saveUser (db : DB) (u' : UserRec) (uid : Nat) :
    findById (saveUser db u') uid =
      (findById db uid).map (fun v => if v.id = u'.id then u' else v) := by
  induction db with
  | nil => rfl
  | cons v tl ih =>
    have hcons : saveUser (v :: tl) u' =
        (if v.id = u'.id then u' else v) :: saveUser tl u' := rfl
    have hid : (if v.id = u'.id then u' else v).id = v.id := by
      by_cases h : v.id = u'.id
      · simp [h]
      · simp [h]
    by_cases hv : v.id = uid
    · rw [hcons]
      unfold findById
      rw [List.find?_cons_of_pos _ (by simp only [hid]; simp [hv]),
        List.find?_cons_of_pos _ (by simp [hv])]
      simp
    · rw [hcons]
      unfold findById
      rw [List.find?_cons_of_neg _ (by simp only [hid]; simp [hv]),
        List.find?_cons_of_neg _ (by simp [hv])]
      exact ih

theorem eq_of_mem_of_id_eq {db : DB}
    (hnd : (db.map (fun w => w.id)).Nodup) {u v : UserRec}
    (hu : u ∈ db) (hv : v ∈ db) (h : u.id = v.id) : u = v :=
  List.inj_on_of_nodup_map hnd hu hv h

theorem saveUser_map_id (db : DB) (u' : UserRec) :
    (saveUser db u').map (fun u => u.id) = db.map (fun u => u.id) := by
  unfold saveUser
  rw [List.map_map]
  apply List.map_congr_left
  intro v _
  by_cases h : v.id = u'.id
  · simp [h]
  · simp [h]

/-- Saving a record found by `_id` (possibly with updated fields) whose
`two_factor.enabled` is unchanged does not change any stored account
`enabled` flag. -/
theorem enabledOf_saveUser_id_keyed {db : DB} {p uid : Nat} {u u' : UserRec}
    (hfind : findById db p = some u) (hid : u'.id = u.id)
    (htf : u'.two_factor.enabled = u.two_factor.enabled) :
    enabledOf (saveUser db u') uid = enabledOf db uid := by
  unfold enabledOf
  rw [findById_saveUser]
  cases hv : findById db uid with
  | none => rfl
  | some v =>
    by_cases h : v.id = u'.id
    · have hup : u.id = p := findById_id hfind
      have hvu : v.id = uid := findById_id hv
      have huid : uid = p := by rw [← hvu, h, hid, hup]
      rw [huid, hfind] at hv
      cases hv
      simp [h, htf]
    · simp [h]

/-- Same as `enabledOf_saveUser_id_keyed`, for a record found by any
query (membership only); needs unique `_id`s in the store. -/
theorem enabledOf_saveUser_of_mem {db : DB} {uid : Nat} {u u' : UserRec}
    (hnd : (db.map (fun w => w.id)).Nodup)
    (hmem : u ∈ db) (hid : u'.id = u.id)
    (htf : u'.two_factor.enabled = u.two_factor.enabled) :
    enabledOf (saveUser db u') uid = enabledOf db uid := by
  unfold enabledOf
  rw [findById_saveUser]
  cases hv : findById db uid with
  | none => rfl
  | some v =>
    by_cases h : v.id = u'.id
    · have hvq : v = u :=
        eq_of_mem_of_id_eq hnd (findById_mem hv) hmem (by rw [h, hid])
      rw [hvq]
      simp [← hid, htf]
    · simp [h]

theorem enabledOf_generate (db : DB) (p : Nat) (s : TwoFactorSecret)
    (uid : Nat) :
    enabledOf (generateTwoFactorSecret db (some p) s).1 uid
      = enabledOf db uid := by
  unfold generateTwoFactorSecret
  cases hfind : findById db p with
  | none => simp [Option.bind, hfind]
  | some u =>
    simp only [Option.bind, hfind]
    exact enabledOf_saveUser_id_keyed hfind rfl rfl

theorem enabledOf_confirmEmail (db : DB) (p : Nat) (c : String) (n uid : Nat) :
    enabledOf (confirmEmail db p c n).1 uid = enabledOf db uid := by
  unfold confirmEmail
  cases hfind : findById db p with
  | none => rfl
  | some u =>
    dsimp only
    split
    · rfl
    · exact enabledOf_saveUser_id_keyed hfind rfl rfl

theorem enabledOf_requestReset (db : DB) (e c : String) (n uid : Nat)
    (hnd : (db.map (fun w => w.id)).Nodup) :
    enabledOf (requestPasswordReset db e c n).1 uid = enabledOf db uid := by
  unfold requestPasswordReset
  cases hfind : findOneByEmail db e with
  | none => simp [hfind]
  | some u =>
    simp only [hfind]
    exact enabledOf_saveUser_of_mem hnd (findOneByEmail_mem hfind) rfl rfl

theorem enabledOf_resetPassword (ah : String → String) (db : DB)
    (t pw : String) (n uid : Nat)
    (hnd : (db.map (fun w => w.id)).Nodup) :
    enabledOf (resetPassword ah db t pw n).1 uid = enabledOf db uid := by
  unfold resetPassword
  cases hfind : findOneByResetToken db t n with
  | none => simp [hfind]
  | some u =>
    simp only [hfind]
    exact enabledOf_saveUser_of_mem hnd (findOneByResetToken_mem hfind) rfl rfl

theorem enabledOf_disable (av : String → String → Bool) (db : DB)
    (p : Nat) (pw : Option String) (uid : Nat)
    (h : enabledOf (disableTwoFactor av db (some p) pw).1 uid = true) :
    enabledOf db uid = true := by
  unfold disableTwoFactor at h
  cases pw with
  | none => exact h
  | some pwv =>
    dsimp only [Option.some_bind] at h
    by_cases hpw : pwv = ""
    · rw [if_pos hpw] at h; exact h
    · rw [if_neg hpw] at h
      cases hfind : findById db p with
      | none => rw [hfind] at h; exact h
      | some u =>
        rw [hfind] at h
        dsimp only at h
        by_cases hv : av u.password pwv
        · rw [if_neg (by simp [hv])] at h
          dsimp only at h
          unfold enabledOf at h ⊢
          rw [findById_saveUser] at h
          cases hvq : findById db uid with
          | none => rw [hvq] at h; exact absurd h (by simp)
          | some v =>
            rw [hvq] at h
            by_cases hid : v.id =
                ({ u with
                    two_factor := { enabled := false, secret := none } } :
                  UserRec).id
            · simp [hid] at h
            · simpa [hid] using h
        · rw [if_pos (by simp [hv])] at h
          exact h

theorem enabledOf_verify2fa (tv : String → String → Nat → Bool) (db : DB)
    (p : Nat) (c : String) (n uid : Nat)
    (h : enabledOf (verifyAndEnableTwoFactor tv db (some p) (some c) n).1 uid
      = true) :
    enabledOf db uid = true ∨
      opEnables tv db uid (.verify2fa p c n) = true := by
  unfold verifyAndEnableTwoFactor at h
  dsimp only [Option.some_bind] at h
  by_cases hc : c = ""
  · rw [if_pos hc] at h; left; exact h
  · rw [if_neg hc] at h
    cases hfind : findById db p with
    | none => rw [hfind] at h; left; exact h
    | some u =>
      rw [hfind] at h
      dsimp only at h
      cases hsec : u.two_factor.secret with
      | none => rw [hsec] at h; left; exact h
      | some s =>
        rw [hsec] at h
        dsimp only at h
        by_cases hb : s.base32 = ""
        · rw [if_pos hb] at h; left; exact h
        · rw [if_neg hb] at h
          by_cases htv : tv s.base32 c n
          · rw [if_neg (by simp [htv])] at h
            dsimp only at h
            unfold enabledOf at h
            rw [findById_saveUser] at h
            cases hvq : findById db uid with
            | none => rw [hvq] at h; exact absurd h (by simp)
            | some v =>
              rw [hvq] at h
              by_cases hid : v.id =
                  ({ u with
                      two_factor :=
                        { u.two_factor with enabled := true } } :
                    UserRec).id
              · right
                have hup : u.id = p := findById_id hfind
                have hvu : v.id = uid := findById_id hvq
                have huid : uid = p := by rw [← hvu, hid]; exact hup
                subst huid
                simp only [opEnables]
                rw [hfind]
                simp [hsec, hb, htv]
              · left
                unfold enabledOf
                rw [hvq]
                simpa [hid] using h
          · rw [if_pos (by simp [htv])] at h; left; exact h

theorem applyOp_map_id (tv : String → String → Nat → Bool)
    (av : String → String → Bool) (ah : String → String)
    (db : DB) (op : AccountOp) :
    (applyOp tv av ah db op).map (fun u => u.id)
      = db.map (fun u => u.id) := by
  cases op <;>
    simp only [applyOp, generateTwoFactorSecret, verifyAndEnableTwoFactor,
      disableTwoFactor, confirmEmail, requestPasswordReset, resetPassword,
      Option.some_bind] <;>
    (repeat' split) <;> simp [saveUser_map_id]

/-- The only single operation that can turn the stored `enabled` flag
of account `uid` from `false` to `true` is a 2FA-verify request by `uid`
whose TOTP code verifies against the currently stored secret of `uid`. -/
theorem enabledOf_applyOp_step (tv : String → String → Nat → Bool)
    (av : String → String → Bool) (ah : String → String) {db : DB}
    (hnd : (db.map (fun w => w.id)).Nodup) (uid : Nat) (op : AccountOp)
    (h : enabledOf (applyOp tv av ah db op) uid = true) :
    enabledOf db uid = true ∨ opEnables tv db uid op = true := by
  cases op with
  | gen p s =>
    dsimp only [applyOp] at h
    left; rw [← enabledOf_generate db p s uid]; exact h
  | verify2fa p c n =>
    dsimp only [applyOp] at h
    exact enabledOf_verify2fa tv db p c n uid h
  | disable p pw =>
    dsimp only [applyOp] at h
    left; exact enabledOf_disable av db p (some pw) uid h
  | confirm p c n =>
    dsimp only [applyOp] at h
    left; rw [← enabledOf_confirmEmail db p c n uid]; exact h
  | requestReset e c n =>
    dsimp only [applyOp] at h
    left; rw [← enabledOf_requestReset db e c n uid hnd]; exact h
  | resetPw t pw n =>
    dsimp only [applyOp] at h
    left; rw [← enabledOf_resetPassword ah db t pw n uid hnd]; exact h

theorem enabledOf_runOps_false (tv : String → String → Nat → Bool)
    (av : String → String → Bool) (ah : String → String) (uid : Nat) :
    ∀ (ops : List AccountOp) (db : DB),
      (db.map (fun w => w.id)).Nodup →
      enabledOf db uid = false →
      noEnableAlong tv av ah uid ops db →
      enabledOf (runOps tv av ah ops db) uid = false := by
  intro ops
  induction ops with
  | nil => intro db _ hfalse _; exact hfalse
  | cons op rest ih =>
    rintro db hnd hfalse ⟨hop, hrest⟩
    have hnd' : ((applyOp tv av ah db op).map (fun w => w.id)).Nodup := by
      rw [applyOp_map_id]; exact hnd
    have hstep : enabledOf (applyOp tv av ah db op) uid = false := by
      by_contra hcontra
      have htrue : enabledOf (applyOp tv av ah db op) uid = true := by
        revert hcontra
        cases enabledOf (applyOp tv av ah db op) uid <;> simp
      rcases enabledOf_applyOp_step tv av ah hnd uid op htrue with h1 | h2
      · rw [hfalse] at h1; exact absurd h1 (by simp)
      · rw [hop] at h2; exact absurd h2 (by simp)
    exact ih (applyOp tv av ah db op) hnd' hstep hrest

/-! Claims. -/

/-- Claim C1, evaluated at the failing input.  The claim requires every
endpoint other than 2FA-login-verification to reject a valid signed
token carrying `scope="2fa"`.  The authentication gate `protect` never
reads the `scope` claim: presented with a validly signed, unexpired
bearer token whose payload carries `scope="2fa"` (and the expected
issuer), it attaches the user and passes the request on — the scoped
token is accepted, not rejected.  The second half of the claim does
hold and is evaluated here as well: `verifyLoginWithTwoFactor` answers
403 to a full-access token (no `scope` claim). -/
theorem claim_C1_protect_accepts_scoped_token :
    protect accessSecret apiIssuer 1000
        (some { claims := { userId := 1, scope := some ("2fa"),
                            iss := some apiIssuer },
                iat := 500, exp := 2000, sigKey := accessSecret })
      = .allow 1
    ∧ (verifyLoginWithTwoFactor jwtSecret 3600000 demoTotp
        [{ demoUser with
            two_factor := { secret := some sampleSecret, enabled := true } }]
        (some { claims := { userId := 1, scope := none, iss := none },
                iat := 500, exp := 3600500, sigKey := jwtSecret })
        (some ("246810")) 1000).2
      = plainRes 403 "Invalid token scope." := by
  constructor
  · rfl
  · rfl

/-- Claim C7, evaluated at the failing input.  The premium gate
`isProUser` re-reads the account with
`User.findById(userId).select("info.is_premium")`; the schema stores
`is_premium` at top level and has no `info` path, so the projected
document carries no `is_premium` value and the falsy check sends 403 —
even for an account whose stored `is_premium` flag is `true`. -/
theorem claim_C7_premium_user_gets_403 :
    ({ demoUser with is_premium := true } : UserRec).is_premium = true
    ∧ isProUser [{ demoUser with is_premium := true }] (some 1)
      = .deny 403 "Forbidden: This feature is for Pro users only." := by
  constructor
  · rfl
  · rfl

/-- Claim C8 counterexample: for an unknown email the response is 404
"User not found", not a success-shaped 200 — the claimed "regardless of
whether the submitted email belongs to a known account" fails. -/
theorem claim_C8_counterexample :
    (requestPasswordReset [] "ghost@example.com" "123456" 0).2.status = 404
    ∧ (requestPasswordReset [] "ghost@example.com" "123456" 0).2.status
        ≠ 200 := by
  constructor
  · rfl
  · decide

/-- Claim C8 as amended: a request-password-reset call answers the generic
200 "instructions sent" only for a known email (storing a fresh reset
code with a 15-minute expiry); for an unknown email it answers 404
"User not found", so the response does reveal account existence. -/
theorem claim_C8_amended (db : DB) (email code : String) (now : Nat) :
    (findOneByEmail db email = none →
      requestPasswordReset db email code now
        = (db, plainRes 404 "User not found"))
    ∧ (∀ u, findOneByEmail db email = some u →
        (requestPasswordReset db email code now).2
          = plainRes 200 "Password reset instructions sent to your email"
        ∧ (requestPasswordReset db email code now).1
          = saveUser db { u with
              reset_password_token := some code,
              reset_password_token_expires := some (now + 15 * 60 * 1000) }) := by
  constructor
  · intro h
    unfold requestPasswordReset
    rw [h]
  · intro u h
    unfold requestPasswordReset
    rw [h]
    exact ⟨rfl, rfl⟩

theorem claim_C8_amended_witness :
    requestPasswordReset [] "ghost@example.com" "b" 0
      = ([], plainRes 404 "User not found")
    ∧ (requestPasswordReset [demoUser] "ada@example.com" "654321" 0).2
      = plainRes 200 "Password reset instructions sent to your email" :=
  ⟨(claim_C8_amended [] "ghost@example.com" "b" 0).1 (by decide),
   ((claim_C8_amended [demoUser] "ada@example.com" "654321" 0).2 demoUser
     (by decide)).1⟩

/-- Claim C5 counterexample: `generateToken` signs exactly the payload it
is given — the controllers pass `{ userId }` / `{ userId, scope }`, so
the issued token carries NO issuer claim — and `verifyToken` passes no
`issuer` option to `jwt.verify`, accepting a token whose issuer claim
is arbitrary ("evil-issuer" here) rather than failing on mismatch. -/
theorem claim_C5_counterexample :
    (∃ t, generateToken jwtSecret { userId := 1, scope := none, iss := none }
        0 3600000 = .ok t ∧ t.claims.iss = none)
    ∧ verifyToken jwtSecret 10
        { claims := { userId := 1, scope := none, iss := some ("evil-issuer") },
          iat := 0, exp := 3600000, sigKey := jwtSecret }
      = .ok { userId := 1, scope := none, iss := some ("evil-issuer") } := by
  constructor
  · exact ⟨_, rfl, rfl⟩
  · rfl

/-- Claim C5 as amended: tokens produced by `generateToken` carry exactly
the payload of the caller (so no issuer claim, since the controllers never
include one), and `verifyToken` succeeds precisely on signature and
expiry — its outcome is independent of the issuer claim.  Issuer
enforcement exists only in the verification of the `protect` middleware,
which rejects every token whose `iss` claim differs from the expected
issuer. -/
theorem claim_C5_amended (secret : String) (hs : secret ≠ "")
    (payload : JwtClaims) (now ttl : Nat) :
    (∃ t, generateToken secret payload now ttl = .ok t ∧ t.claims = payload)
    ∧ (∀ (tok : SignedJwt) (c : JwtClaims),
        verifyToken secret now tok = .ok c ↔
          (tok.sigKey = secret ∧ now < tok.exp ∧ c = tok.claims))
    ∧ (∀ (issuer : String) (tok : SignedJwt),
        tok.claims.iss ≠ some issuer →
        ∀ r, jwtVerifyWithIssuer secret issuer now tok ≠ .ok r) := by
  refine ⟨?_, ?_, ?_⟩
  · have ht : generateToken secret payload now ttl
        = .ok { claims := payload, iat := now, exp := now + ttl,
                sigKey := secret } := by
      unfold generateToken
      rw [if_neg hs]
    exact ⟨_, ht, rfl⟩
  · intro tok c
    unfold verifyToken
    rw [if_neg hs]
    by_cases h1 : tok.sigKey = secret
    · rw [if_neg (by simp [h1])]
      by_cases h2 : tok.exp ≤ now
      · rw [if_pos h2]
        constructor
        · intro hx; exact absurd hx (by simp)
        · rintro ⟨-, hlt, -⟩; omega
      · rw [if_neg h2]
        constructor
        · intro hx
          refine ⟨h1, by omega, ?_⟩
          exact (Except.ok.injEq _ _ ▸ hx.symm) ▸ rfl
        · rintro ⟨-, -, rfl⟩; rfl
    · rw [if_pos (by simp [h1])]
      constructor
      · intro hx; exact absurd hx (by simp)
      · rintro ⟨h, -, -⟩; exact absurd h h1
  · intro issuer tok hiss r
    unfold jwtVerifyWithIssuer
    by_cases h1 : tok.sigKey ≠ secret
    · rw [if_pos h1]; simp
    · rw [if_neg h1]
      by_cases h2 : tok.exp ≤ now
      · rw [if_pos h2]; simp
      · rw [if_neg h2]
        rw [if_pos hiss]; simp

theorem claim_C5_amended_witness :
    (jwtSecret : String) ≠ "" ∧
    ((∃ t, generateToken jwtSecret
          { userId := 1, scope := none, iss := none } 0 3600000 = .ok t
        ∧ t.claims = { userId := 1, scope := none, iss := none })
    ∧ (∀ (tok : SignedJwt) (c : JwtClaims),
        verifyToken jwtSecret 0 tok = .ok c ↔
          (tok.sigKey = jwtSecret ∧ 0 < tok.exp ∧ c = tok.claims))
    ∧ (∀ (issuer : String) (tok : SignedJwt),
        tok.claims.iss ≠ some issuer →
        ∀ r, jwtVerifyWithIssuer jwtSecret issuer 0 tok ≠ .ok r)) :=
  ⟨by decide,
   claim_C5_amended jwtSecret (by decide)
     { userId := 1, scope := none, iss := none } 0 3600000⟩

/-- Claim C2 counterexample: a registration with a referral code where the
transaction COMMIT fails.  The transaction is rolled back (store
unchanged) and the failure surfaces as 500, but `res.cookie` ran before
`commitTransaction`, so the error response still carries the signed
session token in its `Set-Cookie` header — contradicting the claim that
on the failure of any step no session token is issued to the caller. -/
theorem claim_C2_counterexample :
    (createUser jwtSecret 3600000 demoHash [referrerUser] referredSignup
        (some referrerUser) 2 123456 0 (some .commit)).1 = [referrerUser]
    ∧ (createUser jwtSecret 3600000 demoHash [referrerUser] referredSignup
        (some referrerUser) 2 123456 0 (some .commit)).2.status = 500
    ∧ (createUser jwtSecret 3600000 demoHash [referrerUser] referredSignup
        (some referrerUser) 2 123456 0 (some .commit)).2.cookieToken
      ≠ none := by
  refine ⟨rfl, rfl, ?_⟩
  decide

/-- Claim C2 as amended: for a registration request with a referral code
(fresh email, non-empty credentials): a failure at the referrer lookup,
the account save, or the token issuance rolls the whole transaction
back — no record persists, no token reaches the response in any form —
and surfaces as 500 `InternalError`.  A failure at the transaction
commit also rolls back every store write and surfaces as 500 with no
token in the body, BUT the session-token cookie set just before the
commit attempt remains on the error response. -/
theorem claim_C2_amended (secret : String) (ems : Nat)
    (ah : String → String) (db : DB) (input : SignupInput)
    (referrer : Option UserRec) (newId code now : Nat)
    (hemail : input.email ≠ "") (hpw : input.password ≠ "")
    (hfresh : findOneByEmail db input.email = none)
    (href : input.referralCode.isSome = true)
    (hs : secret ≠ "") :
    (∀ failAt, (failAt = CreateStep.referrerLookup ∨
        failAt = CreateStep.accountSave ∨ failAt = CreateStep.tokenIssue) →
      createUser secret ems ah db input referrer newId code now (some failAt)
        = (db, internalRes))
    ∧ ((createUser secret ems ah db input referrer newId code now
          (some .commit)).1 = db
      ∧ (createUser secret ems ah db input referrer newId code now
          (some .commit)).2.status = 500
      ∧ (createUser secret ems ah db input referrer newId code now
          (some .commit)).2.bodyToken = none
      ∧ (createUser secret ems ah db input referrer newId code now
          (some .commit)).2.cookieToken
        = some { claims := { userId := newId, scope := none, iss := none },
                 iat := now, exp := now + ems, sigKey := secret }) := by
  have hguard : ¬(input.email = "" || input.password = "") = true := by
    simp [hemail, hpw]
  obtain ⟨rc, hrc⟩ := Option.isSome_iff_exists.mp href
  constructor
  · rintro failAt (hf | hf | hf) <;> subst hf <;>
      (unfold createUser; rw [if_neg hguard, hfresh]; dsimp only; rw [hrc])
    · dsimp only
      rw [if_pos rfl]
    · cases referrer <;> simp
    · cases referrer <;> simp [generateToken, hs]
  · unfold createUser
    rw [if_neg hguard, hfresh]
    dsimp only
    rw [hrc]
    dsimp only
    rw [if_neg (by simp)]
    have hgen : generateToken secret
        { userId := newId, scope := none, iss := none } now ems
        = .ok { claims := { userId := newId, scope := none, iss := none },
                iat := now, exp := now + ems, sigKey := secret } := by
      unfold generateToken
      rw [if_neg hs]
    cases referrer <;>
      simp [hgen]

theorem claim_C2_amended_witness :
    (referredSignup.email ≠ "" ∧ referredSignup.password ≠ ""
      ∧ findOneByEmail [referrerUser] referredSignup.email = none
      ∧ referredSignup.referralCode.isSome = true
      ∧ (jwtSecret : String) ≠ "")
    ∧ createUser jwtSecret 3600000 demoHash [referrerUser] referredSignup
        (some referrerUser) 2 123456 0 (some .accountSave)
      = ([referrerUser], internalRes) :=
  ⟨⟨by decide, by decide, by decide, by decide, by decide⟩,
   (claim_C2_amended jwtSecret 3600000 demoHash [referrerUser]
      referredSignup (some referrerUser) 2 123456 0 (by decide) (by decide)
      (by decide) (by decide) (by decide)).1
     CreateStep.accountSave (Or.inr (Or.inl rfl))⟩

/-- Claim C3: for a login whose email resolves to an account and whose
password verifies: when 2FA is enabled the response carries only a
5-minute `scope="2fa"` temporary token — no cookie, no full-access
token, store untouched; when 2FA is not enabled a full-access
(no scope) token cookie with the configured expiry is set immediately
in the same response. -/
theorem claim_C3_login_2fa_branching (secret : String) (ems : Nat)
    (av : String → String → Bool) (db : DB) (email pw : String)
    (now : Nat) (u : UserRec) (hs : secret ≠ "")
    (hfind : findOneByEmail db email = some u)
    (hpw : av u.password pw = true) :
    (u.two_factor.enabled = true →
      loginUser secret ems av db email pw now
        = (db, { status := 200, message := "Please enter your 2FA code.",
                 cookieToken := none, bodyToken := none,
                 tempToken := some
                   { claims := { userId := u.id, scope := some ("2fa"),
                                 iss := none },
                     iat := now, exp := now + 300000,
                     sigKey := secret } }))
    ∧ (u.two_factor.enabled = false →
      loginUser secret ems av db email pw now
        = (db, { status := 201,
                 message := "Login successful, Set 2fa for more security",
                 cookieToken := some
                   { claims := { userId := u.id, scope := none, iss := none },
                     iat := now, exp := now + ems, sigKey := secret },
                 bodyToken := none, tempToken := none })) := by
  have hrole : mandatoryRoles.contains u.role = true := by
    cases h : u.role <;> rfl
  constructor
  · intro hen
    unfold loginUser
    rw [hfind]
    dsimp only
    rw [if_neg (by simp [hpw])]
    rw [hen]
    simp only [hrole, Bool.not_true, Bool.and_false, Bool.false_eq_true,
      if_false, if_true]
    have hgen : generateToken secret
        { userId := u.id, scope := some ("2fa"), iss := none } now 300000
        = .ok { claims := { userId := u.id, scope := some ("2fa"), iss := none },
                iat := now, exp := now + 300000, sigKey := secret } := by
      unfold generateToken
      rw [if_neg hs]
    rw [hgen]
  · intro hen
    unfold loginUser
    rw [hfind]
    dsimp only
    rw [if_neg (by simp [hpw])]
    rw [hen]
    simp only [hrole, Bool.not_false, Bool.and_true, if_true]
    have hgen : generateToken secret
        { userId := u.id, scope := none, iss := none } now ems
        = .ok { claims := { userId := u.id, scope := none, iss := none },
                iat := now, exp := now + ems, sigKey := secret } := by
      unfold generateToken
      rw [if_neg hs]
    rw [hgen]

theorem claim_C3_login_2fa_branching_witness :
    ((jwtSecret : String) ≠ ""
      ∧ findOneByEmail
          [{ demoUser with
              two_factor := { secret := some sampleSecret, enabled := true } }]
          "ada@example.com"
        = some { demoUser with
            two_factor := { secret := some sampleSecret, enabled := true } }
      ∧ demoVerify demoUser.password ("pw1") = true)
    ∧ (loginUser jwtSecret 3600000 demoVerify
        [{ demoUser with
            two_factor := { secret := some sampleSecret, enabled := true } }]
        "ada@example.com" "pw1" 1000).2.tempToken
      = some { claims := { userId := 1, scope := some ("2fa"), iss := none },
               iat := 1000, exp := 301000, sigKey := jwtSecret }
    ∧ (loginUser jwtSecret 3600000 demoVerify
        [{ demoUser with
            two_factor := { secret := some sampleSecret, enabled := true } }]
        "ada@example.com" "pw1" 1000).2.cookieToken = none
    ∧ (loginUser jwtSecret 3600000 demoVerify [demoUser]
        "ada@example.com" "pw1" 1000).2.cookieToken
      = some { claims := { userId := 1, scope := none, iss := none },
               iat := 1000, exp := 3601000, sigKey := jwtSecret } := by
  have h2fa := (claim_C3_login_2fa_branching jwtSecret 3600000 demoVerify
    [{ demoUser with
        two_factor := { secret := some sampleSecret, enabled := true } }]
    "ada@example.com" "pw1" 1000
    { demoUser with
        two_factor := { secret := some sampleSecret, enabled := true } }
    (by decide) (by decide) (by decide)).1 rfl
  have hplain := (claim_C3_login_2fa_branching jwtSecret 3600000 demoVerify
    [demoUser] "ada@example.com" "pw1" 1000 demoUser
    (by decide) (by decide) (by decide)).2 rfl
  refine ⟨⟨by decide, by decide, by decide⟩, ?_, ?_, ?_⟩
  · rw [h2fa]; rfl
  · rw [h2fa]
  · rw [hplain]; rfl

theorem findById_saveUser_self {db : DB} {uid : Nat} {u u' : UserRec}
    (hfind : findById db uid = some u) (hid : u'.id = u.id) :
    findById (saveUser db u') uid = some u' := by
  rw [findById_saveUser, hfind]
  simp [hid]

theorem resetTokenMatches_mono {now now2 : Nat} (h : now ≤ now2)
    {code : String} {w : UserRec}
    (hm : resetTokenMatches now2 code w = true) :
    resetTokenMatches now code w = true := by
  rw [resetTokenMatches_iff] at hm ⊢
  obtain ⟨h1, e, h2, h3⟩ := hm
  exact ⟨h1, e, h2, by omega⟩

theorem confirmEmail_status {db : DB} {uid : Nat} {code : String}
    {now : Nat} {u : UserRec} (hfind : findById db uid = some u) :
    (confirmEmail db uid code now).2.status = 200 ↔
      (u.verify_email_token = some code ∧
        ∃ e, u.verify_email_token_expires = some e ∧ now ≤ e) := by
  unfold confirmEmail
  rw [hfind]
  dsimp only
  by_cases h1 : u.verify_email_token = some code
  · cases hx : u.verify_email_token_expires with
    | none => simp [h1, hx, plainRes]
    | some e =>
      by_cases h2 : e < now
      · simp only [h1, hx]
        simp [plainRes, h2]
        try omega
      · simp only [h1, hx]
        simp [plainRes, h2]
        try omega
  · simp [h1, plainRes]

theorem confirmEmail_success_eq {db : DB} {uid : Nat} {code : String}
    {now : Nat} {u : UserRec} (hfind : findById db uid = some u)
    (h1 : u.verify_email_token = some code) {e : Nat}
    (hx : u.verify_email_token_expires = some e) (h2 : now ≤ e) :
    confirmEmail db uid code now
      = (saveUser db
          { u with
            is_verified := true,
            verify_email_token := none,
            verify_email_token_expires := none },
         plainRes 200 "Email confirmed successfully") := by
  unfold confirmEmail
  rw [hfind]
  dsimp only
  rw [if_neg (by simp [h1, hx]; omega)]

theorem resetPassword_success_eq (ah : String → String) {db : DB}
    {code : String} (npw : String) {now : Nat} {v : UserRec}
    (hv : findOneByResetToken db code now = some v) :
    resetPassword ah db code npw now
      = (saveUser db
          { v with
            password := ah npw,
            reset_password_token := none,
            reset_password_token_expires := none },
         plainRes 200 "Password reset successfully") := by
  unfold resetPassword
  rw [hv]

/-- Claim C4 counterexample: at the very expiry instant (`now` equal to
the stored expiry) the confirm-email check `new Date() > expires`
still accepts the code, although the current time is NOT before the
stored expiry — the claimed "accepted iff ... the current time is
before the stored expiry" fails at the boundary. -/
theorem claim_C4_counterexample :
    verifUser.verify_email_token_expires = some 5000
    ∧ (confirmEmail [verifUser] 1 "111111" 5000).2.status = 200
    ∧ ¬ (5000 < 5000) := by
  refine ⟨rfl, rfl, by omega⟩

/-- Claim C4 as amended: confirm-email accepts a code iff it string-equals
the stored code and `now ≤` the stored expiry (at-or-before, boundary
inclusive); reset-password accepts iff the code of some stored account
string-equals the submitted one with `now` strictly before its expiry.
Both clear the stored code and expiry on success, so an immediate
resubmission of the same code is rejected (for reset: provided the code
was held by exactly one account). -/
theorem claim_C4_amended (ah : String → String) (db : DB) (uid : Nat)
    (code npw npw2 : String) (now now2 : Nat) (u : UserRec)
    (hfind : findById db uid = some u) (hnow : now ≤ now2) :
    ((confirmEmail db uid code now).2.status = 200 ↔
      (u.verify_email_token = some code ∧
        ∃ e, u.verify_email_token_expires = some e ∧ now ≤ e))
    ∧ ((confirmEmail db uid code now).2.status ≠ 200 →
        confirmEmail db uid code now
          = (db, plainRes 401 "Invalid or expired verification code"))
    ∧ ((confirmEmail db uid code now).2.status = 200 →
        (confirmEmail (confirmEmail db uid code now).1 uid code now2).2
          = plainRes 401 "Invalid or expired verification code")
    ∧ ((resetPassword ah db code npw now).2.status = 200 ↔
        ∃ v, findOneByResetToken db code now = some v)
    ∧ (∀ v, findOneByResetToken db code now = some v →
        resetTokenMatches now code v = true
        ∧ ((∀ w ∈ db, resetTokenMatches now code w = true → w = v) →
          (resetPassword ah (resetPassword ah db code npw now).1 code npw2
              now2).2
            = plainRes 400 "Invalid or expired reset token")) := by
  refine ⟨confirmEmail_status hfind, ?_, ?_, ?_, ?_⟩
  · intro hne
    unfold confirmEmail at hne ⊢
    rw [hfind] at hne ⊢
    dsimp only at hne ⊢
    by_cases hrej : (u.verify_email_token ≠ some code ||
        u.verify_email_token_expires.isNone ||
        (match u.verify_email_token_expires with
         | some e => decide (e < now)
         | none => true)) = true
    · rw [if_pos hrej]
    · rw [if_neg hrej] at hne
      exact absurd rfl hne
  · intro hok
    obtain ⟨h1, e, hx, h2⟩ := (confirmEmail_status hfind).mp hok
    rw [confirmEmail_success_eq hfind h1 hx h2]
    dsimp only
    have hfind2 : findById
        (saveUser db
          { u with
            is_verified := true,
            verify_email_token := none,
            verify_email_token_expires := none }) uid
        = some
          { u with
            is_verified := true,
            verify_email_token := none,
            verify_email_token_expires := none } :=
      findById_saveUser_self hfind rfl
    unfold confirmEmail
    rw [hfind2]
    dsimp only
    rw [if_pos (by simp)]
  · unfold resetPassword
    cases hv : findOneByResetToken db code now with
    | none => simp [plainRes]
    | some v => simp [plainRes]
  · intro v hv
    refine ⟨findOneByResetToken_matches hv, ?_⟩
    intro huniq
    rw [resetPassword_success_eq ah npw hv]
    dsimp only
    have hnone : findOneByResetToken
        (saveUser db
          { v with
            password := ah npw,
            reset_password_token := none,
            reset_password_token_expires := none }) code now2 = none := by
      unfold findOneByResetToken
      rw [List.find?_eq_none]
      intro x hx
      unfold saveUser at hx
      obtain ⟨w, hw, hfw⟩ := List.mem_map.mp hx
      by_cases hid : w.id =
          ({ v with
             password := ah npw,
             reset_password_token := none,
             reset_password_token_expires := none } : UserRec).id
      · rw [if_pos hid] at hfw
        rw [← hfw]
        intro hmatch
        rw [resetTokenMatches_iff] at hmatch
        exact absurd hmatch.1 (by simp)
      · rw [if_neg hid] at hfw
        rw [← hfw]
        intro hmatch
        have hwv : w = v := huniq w hw (resetTokenMatches_mono hnow hmatch)
        exact hid (by rw [hwv])
    unfold resetPassword
    rw [hnone]

theorem claim_C4_amended_witness :
    (findById [codeUser] 1 = some codeUser ∧ (1000 : Nat) ≤ 2000)
    ∧ (confirmEmail [codeUser] 1 "222333" 1000).2.status = 200
    ∧ (resetPassword demoHash [codeUser] "654321" "np" 1000).2.status
        = 200 :=
  ⟨⟨by decide, by decide⟩,
   (claim_C4_amended demoHash [codeUser] 1 "222333" "np" "np2" 1000 2000
      codeUser (by decide) (by decide)).1.mpr
     ⟨by decide, 10000, by decide, by decide⟩,
   (claim_C4_amended demoHash [codeUser] 1 "654321" "np" "np2" 1000 2000
      codeUser (by decide) (by decide)).2.2.2.1.mpr
     ⟨codeUser, by decide⟩⟩

theorem verifyToken_ok_iff {secret : String} {now : Nat} {tok : SignedJwt}
    {c : JwtClaims} :
    verifyToken secret now tok = .ok c ↔
      (secret ≠ "" ∧ tok.sigKey = secret ∧ now < tok.exp ∧ c = tok.claims) := by
  unfold verifyToken
  by_cases h0 : secret = ""
  · rw [if_pos h0]
    simp [h0]
  · rw [if_neg h0]
    by_cases h1 : tok.sigKey ≠ secret
    · rw [if_pos h1]
      simp [h0, h1]
    · rw [if_neg h1]
      by_cases h2 : tok.exp ≤ now
      · rw [if_pos h2]
        constructor
        · intro hx; exact absurd hx (by simp)
        · rintro ⟨-, -, hlt, -⟩; omega
      · rw [if_neg h2]
        constructor
        · intro hx
          refine ⟨h0, by simpa using h1, by omega, ?_⟩
          cases hx; rfl
        · rintro ⟨-, -, -, rfl⟩; rfl

/-- Claim C9: a 2FA-login-verification attempt with a valid
`scope="2fa"` temporary token whose submitted TOTP code fails: the
endpoint answers 401 "Invalid 2FA token." with no cookie and no token
of any kind, the store is returned unchanged (no account field is
mutated), and the temporary token itself still verifies — and hence is
reusable — at any instant before its own expiry. -/
theorem claim_C9_failed_totp_no_effect (secret : String) (ems : Nat)
    (tv : String → String → Nat → Bool) (db : DB) (tok : SignedJwt)
    (code : String) (now : Nat) (claims : JwtClaims) (u : UserRec)
    (s : TwoFactorSecret)
    (hver : verifyToken secret now tok = .ok claims)
    (hscope : claims.scope = some ("2fa"))
    (hfind : findById db claims.userId = some u)
    (hen : u.two_factor.enabled = true)
    (hsec : u.two_factor.secret = some s)
    (hb : s.base32 ≠ "") (hcode : code ≠ "")
    (htv : tv s.base32 code now = false) :
    verifyLoginWithTwoFactor secret ems tv db (some tok) (some code) now
      = (db, plainRes 401 "Invalid 2FA token.")
    ∧ (∀ now2, now2 < tok.exp → verifyToken secret now2 tok = .ok claims) := by
  obtain ⟨h0, h1, h2, hclaims⟩ := verifyToken_ok_iff.mp hver
  constructor
  · unfold verifyLoginWithTwoFactor
    dsimp only
    rw [if_neg hcode, hver]
    dsimp only
    rw [if_neg (by simp [hscope]), hfind]
    dsimp only
    rw [if_neg (by simp [hen]), hsec]
    dsimp only
    rw [if_neg hb, if_pos (by simp [htv])]
  · intro now2 hlt
    rw [verifyToken_ok_iff]
    exact ⟨h0, h1, hlt, hclaims⟩

theorem claim_C9_failed_totp_no_effect_witness :
    (verifyToken jwtSecret 1000 demoTempToken
        = .ok { userId := 1, scope := some ("2fa"), iss := none }
      ∧ demoTotp sampleSecret.base32 ("999999") 1000 = false)
    ∧ verifyLoginWithTwoFactor jwtSecret 3600000 demoTotp [twoFaUser]
        (some demoTempToken) (some ("999999")) 1000
      = ([twoFaUser], plainRes 401 "Invalid 2FA token.")
    ∧ (∀ now2, now2 < demoTempToken.exp →
        verifyToken jwtSecret now2 demoTempToken
          = .ok { userId := 1, scope := some ("2fa"), iss := none }) := by
  have h := claim_C9_failed_totp_no_effect jwtSecret 3600000 demoTotp
    [twoFaUser] demoTempToken ("999999") 1000
    { userId := 1, scope := some ("2fa"), iss := none } twoFaUser sampleSecret
    (by rfl) (by decide) (by decide) (by decide) (by decide) (by decide)
    (by decide) (by decide)
  exact ⟨⟨by rfl, by decide⟩, h.1, h.2⟩

theorem saveUser_length (db : DB) (u' : UserRec) :
    (saveUser db u').length = db.length := by
  unfold saveUser
  simp

theorem saveUser_getElem? (db : DB) (u' : UserRec) (i : Nat) :
    (saveUser db u')[i]?
      = (db[i]?).map (fun v => if v.id = u'.id then u' else v) := by
  unfold saveUser
  simp

/-- Claim C10: reset-password selects its target by the submitted code:
when no stored account matches (exact code equality plus unexpired) the
store is unchanged and the reply is 400; when the lookup returns an
account, that account is a member of the store holding exactly the
submitted code with an unexpired expiry, it is the only record the
operation rewrites (every record at a position with a different `_id`
is untouched), and when the code is bound to exactly one account the
rewritten account is precisely that one. -/
theorem claim_C10_reset_code_binding (ah : String → String) (db : DB)
    (tok npw : String) (now : Nat) :
    (findOneByResetToken db tok now = none →
      resetPassword ah db tok npw now
        = (db, plainRes 400 "Invalid or expired reset token"))
    ∧ (∀ u, findOneByResetToken db tok now = some u →
        u ∈ db
        ∧ u.reset_password_token = some tok
        ∧ (∃ e, u.reset_password_token_expires = some e ∧ now < e)
        ∧ (resetPassword ah db tok npw now).1
            = saveUser db
                { u with
                  password := ah npw,
                  reset_password_token := none,
                  reset_password_token_expires := none }
        ∧ (resetPassword ah db tok npw now).1.length = db.length
        ∧ (∀ (i : Nat) (v : UserRec), db[i]? = some v → v.id ≠ u.id →
            (resetPassword ah db tok npw now).1[i]? = some v)
        ∧ (∀ b ∈ db, resetTokenMatches now tok b = true →
            (∀ w ∈ db, resetTokenMatches now tok w = true → w = b) →
            u = b)) := by
  constructor
  · intro hnone
    unfold resetPassword
    rw [hnone]
  · intro u hu
    have hmem : u ∈ db := findOneByResetToken_mem hu
    have hmatch := findOneByResetToken_matches hu
    rw [resetTokenMatches_iff] at hmatch
    have heq := resetPassword_success_eq ah npw hu
    refine ⟨hmem, hmatch.1, hmatch.2, by rw [heq], ?_, ?_, ?_⟩
    · rw [heq]
      exact saveUser_length db _
    · intro i v hvi hid
      rw [heq]
      dsimp only
      rw [saveUser_getElem?, hvi]
      dsimp only [Option.map]
      rw [if_neg hid]
    · intro b hb hbm huniq
      exact huniq u hmem (by rw [resetTokenMatches_iff]; exact hmatch)

theorem claim_C10_reset_code_binding_witness :
    findOneByResetToken [codeUser] "654321" 1000 = some codeUser
    ∧ codeUser.reset_password_token = some ("654321")
    ∧ (resetPassword demoHash [codeUser] "654321" "np" 1000).1
        = saveUser [codeUser]
            { codeUser with
              password := demoHash ("np"),
              reset_password_token := none,
              reset_password_token_expires := none } := by
  have h := (claim_C10_reset_code_binding demoHash [codeUser] "654321" "np"
    1000).2 codeUser (by decide)
  exact ⟨by decide, h.2.1, h.2.2.2.1⟩

/-- Claim C6: the 2FA lifecycle invariants: (i) over every modelled
account-mutating operation, the stored `enabled` flag of an account can turn
`true` only through a 2FA-verify request by that account whose TOTP
code verifies against the currently stored secret; (ii) disabling
requires the submitted password to verify against the current
hash — on failure the store is unchanged and the reply is 401, on
success `enabled` becomes `false` and the secret is cleared; (iii)
`generateTwoFactorSecret` stores the new secret WITHOUT touching
`enabled`, and starting from `enabled = false` the flag stays `false`
along any operation sequence containing no successful verify.
(`_id`s are assumed unique in the store, as MongoDB guarantees.) -/
theorem claim_C6_twofactor_lifecycle (tv : String → String → Nat → Bool)
    (av : String → String → Bool) (ah : String → String) (db : DB)
    (hnd : (db.map (fun w => w.id)).Nodup) (uid : Nat) :
    (∀ op, enabledOf (applyOp tv av ah db op) uid = true →
      enabledOf db uid = true ∨ opEnables tv db uid op = true)
    ∧ (∀ p pw u, findById db p = some u → pw ≠ "" →
        (av u.password pw = false →
          disableTwoFactor av db (some p) (some pw)
            = (db, plainRes 401 "Invalid password"))
        ∧ (av u.password pw = true →
          disableTwoFactor av db (some p) (some pw)
            = (saveUser db
                { u with two_factor := { secret := none, enabled := false } },
               plainRes 200 "2FA has been disabled successfully.")))
    ∧ (∀ p s u, findById db p = some u →
        (generateTwoFactorSecret db (some p) s).1
          = saveUser db
              { u with
                two_factor := { u.two_factor with secret := some s } }
        ∧ enabledOf (generateTwoFactorSecret db (some p) s).1 uid
            = enabledOf db uid)
    ∧ (∀ ops, enabledOf db uid = false →
        noEnableAlong tv av ah uid ops db →
        enabledOf (runOps tv av ah ops db) uid = false) := by
  refine ⟨fun op => enabledOf_applyOp_step tv av ah hnd uid op, ?_, ?_,
    fun ops => enabledOf_runOps_false tv av ah uid ops db hnd⟩
  · intro p pw u hfind hpw
    constructor
    · intro hav
      unfold disableTwoFactor
      dsimp only [Option.some_bind]
      rw [if_neg hpw, hfind]
      dsimp only
      rw [if_pos (by simp [hav])]
    · intro hav
      unfold disableTwoFactor
      dsimp only [Option.some_bind]
      rw [if_neg hpw, hfind]
      dsimp only
      rw [if_neg (by simp [hav])]
  · intro p s u hfind
    constructor
    · unfold generateTwoFactorSecret
      dsimp only [Option.some_bind]
      rw [hfind]
    · exact enabledOf_generate db p s uid

theorem claim_C6_twofactor_lifecycle_witness :
    (([demoUser].map (fun w => w.id)).Nodup ∧ enabledOf [demoUser] 1 = false)
    ∧ enabledOf (runOps demoTotp demoVerify demoHash
        [AccountOp.gen 1 sampleSecret, AccountOp.verify2fa 1 "000000" 50]
        [demoUser]) 1 = false := by
  have h := claim_C6_twofactor_lifecycle demoTotp demoVerify demoHash
    [demoUser] (by simp) 1
  refine ⟨⟨by simp, by decide⟩, ?_⟩
  refine h.2.2.2
    [AccountOp.gen 1 sampleSecret, AccountOp.verify2fa 1 "000000" 50]
    (by decide) ?_
  refine ⟨by decide, by decide, trivial⟩

end Boilerplate
